import Mathlib

/-!
Shallow embedding of the Parrot speech synthesis model (src/models/model.py).

Tensors are modelled as functions out of Fin index types into the reals and
batched operations are modelled per batch element.  The GatedRecurrent cell
of the external blocks library is an abstract parameter of the model
structures, as are the normalization constants imported from utils.
Covered here: the logsumexp helper, cost_gmm and sample_gmm, the GMMEmitter
(components, cost, emit), the F0Emitter cost and emit, the per step
recurrences of Parrot.compute_cost and SimpleParrot.compute_cost, the
masked mean cost aggregation with its start_flag term, the shared state
update pairs, and the SimpleParrot sampling recurrence.
-/

noncomputable section

open Finset

-- blocks.bricks.Linear: affine map x to W x + b.
def linApply {m n : ℕ} (W : Fin m → Fin n → ℝ) (b : Fin m → ℝ)
    (x : Fin n → ℝ) : Fin m → ℝ :=
  fun i => (∑ j, W i j * x j) + b i

-- Per row maximum used by logsumexp (model.py lines 43 to 47).
def rowMax {k : ℕ} (x : Fin k → ℝ) : ℝ :=
  if h : (Finset.univ : Finset (Fin k)).Nonempty then Finset.univ.sup' h x else 0

-- logsumexp subtracts the per row maximum before exponentiating.
def logsumexp {k : ℕ} (x : Fin k → ℝ) : ℝ :=
  Real.log (∑ i, Real.exp (x i - rowMax x)) + rowMax x

-- Density of a one dimensional Gaussian, the reference the spec compares to.
def gaussDensity (y μ σ : ℝ) : ℝ :=
  Real.exp (-((y - μ)^2 / (2 * σ^2))) / (σ * Real.sqrt (2 * Real.pi))

-- Inner term of cost_gmm (model.py lines 73 to 75), per mixture component.
def gmmInner {dim k : ℕ} (y : Fin dim → ℝ) (mu sig : Fin dim → Fin k → ℝ)
    (j : Fin k) : ℝ :=
  -(1/2) * ∑ d, ((y d - mu d j)^2 / (sig d j)^2
    + 2 * Real.log (sig d j) + Real.log (2 * Real.pi))

-- cost_gmm (model.py lines 54 to 79), per row of the flattened batch.
def cost_gmm {dim k : ℕ} (y : Fin dim → ℝ) (mu sig : Fin dim → Fin k → ℝ)
    (weight : Fin k → ℝ) : ℝ :=
  -(logsumexp fun j => Real.log (weight j) + gmmInner y mu sig j)

-- sample_gmm (model.py lines 82 to 106); the multinomial draw over weight is
-- modelled by its sampled outcome idx and the standard normal draw by noise.
def sample_gmm {dim k : ℕ} (mu sig : Fin dim → Fin k → ℝ) (weight : Fin k → ℝ)
    (idx : Fin k) (noise : Fin dim → ℝ) : Fin dim → ℝ :=
  fun d => mu d idx + sig d idx * noise d

-- Row softmax, as applied by tensor.nnet.softmax to the weight logits.
def softmax {k : ℕ} (z : Fin k → ℝ) : Fin k → ℝ :=
  fun i => Real.exp (z i) / ∑ j, Real.exp (z j)

-- Index of the raw mu block inside the flat projection of GMMEmitter.
def muIdx {dim k : ℕ} (d : Fin dim) (j : Fin k) : Fin (2*dim*k + k) :=
  ⟨d.val * k + j.val, by
    have h1 : d.val * k + j.val < dim * k := by
      calc d.val * k + j.val < d.val * k + k := Nat.add_lt_add_left j.isLt _
        _ = (d.val + 1) * k := (Nat.succ_mul d.val k).symm
        _ ≤ dim * k := Nat.mul_le_mul_right k d.isLt
    calc d.val * k + j.val < dim * k := h1
      _ ≤ 2*dim*k + k := by
        calc dim * k ≤ dim * k + (dim * k + k) := Nat.le_add_right _ _
          _ = 2*dim*k + k := by ring⟩

-- Index of the raw sigma block inside the flat projection of GMMEmitter.
def sigIdx {dim k : ℕ} (d : Fin dim) (j : Fin k) : Fin (2*dim*k + k) :=
  ⟨dim * k + (d.val * k + j.val), by
    have h1 : d.val * k + j.val < dim * k := by
      calc d.val * k + j.val < d.val * k + k := Nat.add_lt_add_left j.isLt _
        _ = (d.val + 1) * k := (Nat.succ_mul d.val k).symm
        _ ≤ dim * k := Nat.mul_le_mul_right k d.isLt
    calc dim * k + (d.val * k + j.val) < dim * k + dim * k := Nat.add_lt_add_left h1 _
      _ ≤ 2*dim*k + k := by
        calc dim * k + dim * k = 2*dim*k := by ring
          _ ≤ 2*dim*k + k := Nat.le_add_right _ _⟩

-- Index of the raw weight block inside the flat projection of GMMEmitter.
def wIdx {dim k : ℕ} (j : Fin k) : Fin (2*dim*k + k) :=
  ⟨2*dim*k + j.val, Nat.add_lt_add_left j.isLt _⟩

-- GMMEmitter.components (model.py lines 133 to 160): one affine projection
-- sliced into mu, sigma and weight; sigma gets exp(raw - bias) + eps, the
-- weight logits are scaled by (1 + bias) before the softmax and floored.
def components {inputDim dim k : ℕ} (W : Fin (2*dim*k + k) → Fin inputDim → ℝ)
    (b : Fin (2*dim*k + k) → ℝ) (samplingBias eps : ℝ) (inputs : Fin inputDim → ℝ) :
    (Fin dim → Fin k → ℝ) × (Fin dim → Fin k → ℝ) × (Fin k → ℝ) :=
  let state := linApply W b inputs
  (fun d j => state (muIdx d j),
   fun d j => Real.exp (state (sigIdx d j) - samplingBias) + eps,
   fun j => softmax (fun i => state (wIdx i) * (1 + samplingBias)) j + eps)

-- GMMEmitter.cost (model.py lines 162 to 165).
def gmmEmitterCost {inputDim dim k : ℕ} (W : Fin (2*dim*k + k) → Fin inputDim → ℝ)
    (b : Fin (2*dim*k + k) → ℝ) (samplingBias eps : ℝ)
    (readouts : Fin inputDim → ℝ) (outputs : Fin dim → ℝ) : ℝ :=
  cost_gmm outputs (components W b samplingBias eps readouts).1
    (components W b samplingBias eps readouts).2.1
    (components W b samplingBias eps readouts).2.2

-- GMMEmitter.emit (model.py lines 167 to 170).
def gmmEmitterEmit {inputDim dim k : ℕ} (W : Fin (2*dim*k + k) → Fin inputDim → ℝ)
    (b : Fin (2*dim*k + k) → ℝ) (samplingBias eps : ℝ)
    (readouts : Fin inputDim → ℝ) (idx : Fin k) (noise : Fin dim → ℝ) : Fin dim → ℝ :=
  sample_gmm (components W b samplingBias eps readouts).1
    (components W b samplingBias eps readouts).2.1
    (components W b samplingBias eps readouts).2.2 idx noise

def logistic (x : ℝ) : ℝ := 1 / (1 + Real.exp (-x))

-- tensor.xlogx.xlogy0: zero when the first argument is zero.
def xlogy0 (x y : ℝ) : ℝ := if x = 0 then 0 else x * Real.log y

-- The voicing probability of F0Emitter.cost (no sampling bias there).
def f0Binary {inputDim : ℕ} (binW : Fin 1 → Fin inputDim → ℝ) (binB : Fin 1 → ℝ)
    (readouts : Fin inputDim → ℝ) : ℝ :=
  logistic (linApply binW binB readouts 0)

-- F0Emitter.cost (model.py lines 219 to 227).
def f0EmitterCost {inputDim kF0 : ℕ} (f0W : Fin (2*1*kF0 + kF0) → Fin inputDim → ℝ)
    (f0B : Fin (2*1*kF0 + kF0) → ℝ) (binW : Fin 1 → Fin inputDim → ℝ) (binB : Fin 1 → ℝ)
    (samplingBias eps : ℝ) (readouts : Fin inputDim → ℝ) (f0 voiced : ℝ) : ℝ :=
  gmmEmitterCost f0W f0B samplingBias eps readouts (fun _ : Fin 1 => f0) * voiced
    - (xlogy0 voiced (f0Binary binW binB readouts)
       + xlogy0 (1 - voiced) (1 - f0Binary binW binB readouts))

-- Binary cross entropy with the 0 log 0 = 0 convention, the reference the
-- spec compares the voicing term to.
def bce (v p : ℝ) : ℝ := -(xlogy0 v p + xlogy0 (1 - v) (1 - p))

-- F0Emitter.emit (model.py lines 200 to 217); un is the uniform draw, idx
-- and noise are the draws inside the wrapped GMM emitter.
def f0EmitterEmit {inputDim kF0 : ℕ} (f0W : Fin (2*1*kF0 + kF0) → Fin inputDim → ℝ)
    (f0B : Fin (2*1*kF0 + kF0) → ℝ) (binW : Fin 1 → Fin inputDim → ℝ) (binB : Fin 1 → ℝ)
    (samplingBias eps meanF0 stdF0 minVoicedLower : ℝ)
    (readouts : Fin inputDim → ℝ) (un : ℝ) (idx : Fin kF0) (noise : Fin 1 → ℝ) :
    (Fin 1 → ℝ) × ℝ :=
  let binary := logistic (linApply binW binB readouts 0 * (1 + samplingBias))
  let binarySample : ℝ := if un < binary then 1 else 0
  let f0a := gmmEmitterEmit f0W f0B samplingBias eps readouts idx noise
  let f0b := fun i => min (f0a i) ((300 - meanF0) / stdF0)
  let f0c := fun i => max (f0b i) ((minVoicedLower - meanF0) / stdF0)
  (fun i => f0c i * binarySample, binarySample)

-- theano.tensor.switch on a scalar flag: first branch when the flag is nonzero.
def tswitch {α : Type} (c : ℝ) (a b : α) : α := if c = 0 then b else a

-- one_hot(transcripts) masked by shape_padright(transcripts_mask).
def transcriptsOH {L nl : ℕ} (tr : Fin L → Fin nl) (m : Fin L → ℝ) :
    Fin L → Fin nl → ℝ :=
  fun u l => (if tr u = l then 1 else 0) * m u

-- Concatenation of spectrum, f0 and voiced into one frame.
def frameOf {nf : ℕ} (sp : Fin nf → ℝ) (f0 v : ℝ) : Fin (nf + 2) → ℝ :=
  fun i => if h : i.val < nf then sp ⟨i.val, h⟩ else if i.val = nf then f0 else v

-- theano.scan: list of the states after each step.
def scanS {σ ι : Type} (f : ι → σ → σ) : σ → List ι → List σ
  | _, [] => []
  | s, x :: xs => f x s :: scanS f (f x s) xs

-- Denominator of the masked mean cost (model.py lines 571 and 922).
def maskedMeanDenom {T B : ℕ} (mask : Fin T → Fin B → ℝ) : ℝ :=
  (∑ t, ∑ b, mask t b) + 1e-5

-- SimpleParrot.attention_mult (model.py line 765).
def attention_mult : ℝ := 1 / 20

-- Parameters of SimpleParrot.  The GatedRecurrent cell is the abstract
-- external blocks component; the trailing real constants are the external
-- normalization configuration imported from utils.
structure SPParams (nf k kF0 rnn1 att nl rd : ℕ) where
  cell : (Fin rnn1 → ℝ) → (Fin (2*rnn1) → ℝ) → (Fin rnn1 → ℝ) → Fin rnn1 → ℝ
  inpW : Fin rnn1 → Fin (nf+2) → ℝ
  inpB : Fin rnn1 → ℝ
  inpGatW : Fin (2*rnn1) → Fin (nf+2) → ℝ
  inpGatB : Fin (2*rnn1) → ℝ
  attInpW : Fin rnn1 → Fin nl → ℝ
  attInpB : Fin rnn1 → ℝ
  attGatW : Fin (2*rnn1) → Fin nl → ℝ
  attGatB : Fin (2*rnn1) → ℝ
  alphaW : Fin att → Fin rnn1 → ℝ
  alphaB : Fin att → ℝ
  betaW : Fin att → Fin rnn1 → ℝ
  betaB : Fin att → ℝ
  kappaW : Fin att → Fin rnn1 → ℝ
  kappaB : Fin att → ℝ
  h1ReadW : Fin rd → Fin rnn1 → ℝ
  h1ReadB : Fin rd → ℝ
  attReadW : Fin rd → Fin nl → ℝ
  attReadB : Fin rd → ℝ
  f0W : Fin (2*1*kF0 + kF0) → Fin rd → ℝ
  f0B : Fin (2*1*kF0 + kF0) → ℝ
  binW : Fin 1 → Fin rd → ℝ
  binB : Fin 1 → ℝ
  spW : Fin (2*nf*k + k) → Fin rd → ℝ
  spB : Fin (2*nf*k + k) → ℝ
  samplingBias : ℝ
  meanF0 : ℝ
  stdF0 : ℝ
  minVoicedLower : ℝ
  meanSpectrum : ℝ
  stdSpectrum : ℝ
  spectrumLower : ℝ
  spectrumUpper : ℝ

-- Recurrent and attention state of SimpleParrot.
structure SPState (rnn1 att nl : ℕ) where
  h1 : Fin rnn1 → ℝ
  kappa : Fin att → ℝ
  w : Fin nl → ℝ

def spZeroState {rnn1 att nl : ℕ} : SPState rnn1 att nl :=
  ⟨fun _ => 0, fun _ => 0, fun _ => 0⟩

-- One step of SimpleParrot.compute_cost (model.py lines 881 to 906).  The
-- kappa increment is attention_mult times an exponential.
def spStep {nf k kF0 rnn1 att nl rd L : ℕ} (P : SPParams nf k kF0 rnn1 att nl rd)
    (ctx : Fin L → Fin nl → ℝ) (xinp : Fin rnn1 → ℝ) (xgat : Fin (2*rnn1) → ℝ)
    (s : SPState rnn1 att nl) : SPState rnn1 att nl :=
  let attinp := linApply P.attInpW P.attInpB s.w
  let attgat := linApply P.attGatW P.attGatB s.w
  let h1 := P.cell (fun i => xinp i + attinp i) (fun i => xgat i + attgat i) s.h1
  let a := fun i => Real.exp (linApply P.alphaW P.alphaB h1 i)
  let bb := fun i => Real.exp (linApply P.betaW P.betaB h1 i)
  let kap := fun i => s.kappa i + attention_mult * Real.exp (linApply P.kappaW P.kappaB h1 i)
  let phi := fun u : Fin L => ∑ i, a i * Real.exp (-(bb i) * (kap i - (u : ℝ))^2)
  let w := fun l => ∑ u, phi u * ctx u l
  { h1 := h1, kappa := kap, w := w }

-- The scan over a chunk inside SimpleParrot.compute_cost.
def spScan {nf k kF0 rnn1 att nl rd L : ℕ} (P : SPParams nf k kF0 rnn1 att nl rd)
    (ctx : Fin L → Fin nl → ℝ) (s0 : SPState rnn1 att nl)
    (ins : List ((Fin rnn1 → ℝ) × (Fin (2*rnn1) → ℝ))) : List (SPState rnn1 att nl) :=
  scanS (fun p s => spStep P ctx p.1 p.2 s) s0 ins

-- The state update pairs returned by SimpleParrot.compute_cost (model.py
-- lines 925 to 934): switch(start_flag, zero, last scanned state).
def spComputeCostUpdate {nf k kF0 rnn1 att nl rd L : ℕ}
    (P : SPParams nf k kF0 rnn1 att nl rd) (ctx : Fin L → Fin nl → ℝ)
    (startFlag : ℝ) (s0 : SPState rnn1 att nl)
    (ins : List ((Fin rnn1 → ℝ) × (Fin (2*rnn1) → ℝ))) : SPState rnn1 att nl :=
  let last := (spScan P ctx s0 ins).getLastD s0
  { h1 := tswitch startFlag (fun _ => 0) last.h1,
    kappa := tswitch startFlag (fun _ => 0) last.kappa,
    w := tswitch startFlag (fun _ => 0) last.w }

-- The scalar cost of SimpleParrot.compute_cost (model.py lines 853 to 923),
-- per batch element b; s0 holds the current shared initial state buffers.
def spComputeCost {nf k kF0 rnn1 att nl rd T B L : ℕ}
    (P : SPParams nf k kF0 rnn1 att nl rd)
    (f0 f0Mask voiced : Fin (T+1) → Fin B → ℝ)
    (spectrum : Fin (T+1) → Fin B → Fin nf → ℝ)
    (transcripts : Fin B → Fin L → Fin nl)
    (transcriptsMask : Fin B → Fin L → ℝ)
    (s0 : Fin B → SPState rnn1 att nl)
    (startFlag : ℝ) : ℝ :=
  let x : Fin T → Fin B → Fin (nf+2) → ℝ :=
    fun t b => frameOf (spectrum t.castSucc b) (f0 t.castSucc b) (voiced t.castSucc b)
  let ctx := fun b => transcriptsOH (transcripts b) (transcriptsMask b)
  let ins := fun b => List.ofFn (fun t : Fin T =>
    (linApply P.inpW P.inpB (x t b), linApply P.inpGatW P.inpGatB (x t b)))
  let states := fun b => spScan P (ctx b) (s0 b) (ins b)
  let sAt := fun (t : Fin T) b => (states b).getD t.val spZeroState
  let readout := fun (t : Fin T) b (r : Fin rd) =>
    linApply P.h1ReadW P.h1ReadB (sAt t b).h1 r
      + linApply P.attReadW P.attReadB (sAt t b).w r
  let stepCost := fun (t : Fin T) b =>
    f0EmitterCost P.f0W P.f0B P.binW P.binB P.samplingBias 1e-5 (readout t b)
        (f0 t.succ b) (voiced t.succ b)
      + gmmEmitterCost P.spW P.spB P.samplingBias 1e-5 (readout t b) (spectrum t.succ b)
  let mask := fun (t : Fin T) b => f0Mask t.succ b
  (∑ t, ∑ b, stepCost t b * mask t b) / maskedMeanDenom mask + 0 * startFlag

-- State of the SimpleParrot sampling recurrence: previous frame plus the
-- recurrent and attention state.
structure SampState (nf rnn1 att nl : ℕ) where
  x : Fin (nf+2) → ℝ
  h1 : Fin rnn1 → ℝ
  kappa : Fin att → ℝ
  w : Fin nl → ℝ

def sampZeroState {nf rnn1 att nl : ℕ} : SampState nf rnn1 att nl :=
  ⟨fun _ => 0, fun _ => 0, fun _ => 0, fun _ => 0⟩

-- Random draws consumed by one step of the sampling recurrence.
structure SampleNoise (nf k kF0 : ℕ) where
  un : ℝ
  f0Idx : Fin kF0
  f0Noise : Fin 1 → ℝ
  spIdx : Fin k
  spNoise : Fin nf → ℝ

-- One step of SimpleParrot.sample_model_fun (model.py lines 951 to 994).
-- Here the kappa increment is a plain exponential, with no attention_mult.
def spSampleStep {nf k kF0 rnn1 att nl rd L : ℕ}
    (P : SPParams nf k kF0 rnn1 att nl rd) (ns : SampleNoise nf k kF0)
    (ctx : Fin L → Fin nl → ℝ) (s : SampState nf rnn1 att nl) :
    SampState nf rnn1 att nl :=
  let xinp := linApply P.inpW P.inpB s.x
  let xgat := linApply P.inpGatW P.inpGatB s.x
  let attinp := linApply P.attInpW P.attInpB s.w
  let attgat := linApply P.attGatW P.attGatB s.w
  let h1 := P.cell (fun i => xinp i + attinp i) (fun i => xgat i + attgat i) s.h1
  let a := fun i => Real.exp (linApply P.alphaW P.alphaB h1 i)
  let bb := fun i => Real.exp (linApply P.betaW P.betaB h1 i)
  let kap := fun i => s.kappa i + Real.exp (linApply P.kappaW P.kappaB h1 i)
  let phi := fun u : Fin L => ∑ i, a i * Real.exp (-(bb i) * (kap i - (u : ℝ))^2)
  let w := fun l => ∑ u, phi u * ctx u l
  let readout := fun r => linApply P.h1ReadW P.h1ReadB h1 r
    + linApply P.attReadW P.attReadB w r
  let fv := f0EmitterEmit P.f0W P.f0B P.binW P.binB P.samplingBias 1e-5
    P.meanF0 P.stdF0 P.minVoicedLower readout ns.un ns.f0Idx ns.f0Noise
  let sp0 := gmmEmitterEmit P.spW P.spB P.samplingBias 1e-5 readout ns.spIdx ns.spNoise
  let sp1 := fun i => min (sp0 i) ((P.spectrumUpper - P.meanSpectrum) / P.stdSpectrum)
  let sp2 := fun i => max (sp1 i) ((P.spectrumLower - P.meanSpectrum) / P.stdSpectrum)
  { x := frameOf sp2 (fv.1 0) fv.2, h1 := h1, kappa := kap, w := w }

-- The iterated sampling recurrence started from zero buffers and a zero
-- initial frame, as in SimpleParrot.sample_model_fun.
def spSampleStates {nf k kF0 rnn1 att nl rd L : ℕ}
    (P : SPParams nf k kF0 rnn1 att nl rd) (noise : ℕ → SampleNoise nf k kF0)
    (ctx : Fin L → Fin nl → ℝ) : ℕ → SampState nf rnn1 att nl
  | 0 => sampZeroState
  | n+1 => spSampleStep P (noise n) ctx (spSampleStates P noise ctx n)

-- SimpleParrot.sample_model (model.py lines 1010 to 1023): the stacked
-- sequence of the frames emitted at each of the num_steps steps.
def sample_model {nf k kF0 rnn1 att nl rd L : ℕ}
    (P : SPParams nf k kF0 rnn1 att nl rd) (noise : ℕ → SampleNoise nf k kF0)
    (ctx : Fin L → Fin nl → ℝ) (numSteps : ℕ) : List (Fin (nf+2) → ℝ) :=
  List.ofFn (fun t : Fin numSteps => (spSampleStates P noise ctx (t.val + 1)).x)

-- Parameters of the full Parrot model: three GatedRecurrent cells for
-- stage 1 with their forks, the attention forks, the readout linears, the
-- stage 2 cell with its input forks, and the two emitters.
structure PParams (nf k kF0 rnn1 rnn2 att nl rd : ℕ) where
  cell1 : (Fin rnn1 → ℝ) → (Fin (2*rnn1) → ℝ) → (Fin rnn1 → ℝ) → Fin rnn1 → ℝ
  cell2 : (Fin rnn1 → ℝ) → (Fin (2*rnn1) → ℝ) → (Fin rnn1 → ℝ) → Fin rnn1 → ℝ
  cell3 : (Fin rnn1 → ℝ) → (Fin (2*rnn1) → ℝ) → (Fin rnn1 → ℝ) → Fin rnn1 → ℝ
  inpW1 : Fin rnn1 → Fin (nf+2) → ℝ
  inpB1 : Fin rnn1 → ℝ
  inpGatW1 : Fin (2*rnn1) → Fin (nf+2) → ℝ
  inpGatB1 : Fin (2*rnn1) → ℝ
  inpW2 : Fin rnn1 → Fin (nf+2) → ℝ
  inpB2 : Fin rnn1 → ℝ
  inpGatW2 : Fin (2*rnn1) → Fin (nf+2) → ℝ
  inpGatB2 : Fin (2*rnn1) → ℝ
  inpW3 : Fin rnn1 → Fin (nf+2) → ℝ
  inpB3 : Fin rnn1 → ℝ
  inpGatW3 : Fin (2*rnn1) → Fin (nf+2) → ℝ
  inpGatB3 : Fin (2*rnn1) → ℝ
  h1h2W : Fin rnn1 → Fin rnn1 → ℝ
  h1h2B : Fin rnn1 → ℝ
  h1h2GatW : Fin (2*rnn1) → Fin rnn1 → ℝ
  h1h2GatB : Fin (2*rnn1) → ℝ
  h1h3W : Fin rnn1 → Fin rnn1 → ℝ
  h1h3B : Fin rnn1 → ℝ
  h1h3GatW : Fin (2*rnn1) → Fin rnn1 → ℝ
  h1h3GatB : Fin (2*rnn1) → ℝ
  h2h3W : Fin rnn1 → Fin rnn1 → ℝ
  h2h3B : Fin rnn1 → ℝ
  h2h3GatW : Fin (2*rnn1) → Fin rnn1 → ℝ
  h2h3GatB : Fin (2*rnn1) → ℝ
  attInpW1 : Fin rnn1 → Fin nl → ℝ
  attInpB1 : Fin rnn1 → ℝ
  attGatW1 : Fin (2*rnn1) → Fin nl → ℝ
  attGatB1 : Fin (2*rnn1) → ℝ
  attInpW2 : Fin rnn1 → Fin nl → ℝ
  attInpB2 : Fin rnn1 → ℝ
  attGatW2 : Fin (2*rnn1) → Fin nl → ℝ
  attGatB2 : Fin (2*rnn1) → ℝ
  attInpW3 : Fin rnn1 → Fin nl → ℝ
  attInpB3 : Fin rnn1 → ℝ
  attGatW3 : Fin (2*rnn1) → Fin nl → ℝ
  attGatB3 : Fin (2*rnn1) → ℝ
  alphaW : Fin att → Fin rnn1 → ℝ
  alphaB : Fin att → ℝ
  betaW : Fin att → Fin rnn1 → ℝ
  betaB : Fin att → ℝ
  kappaW : Fin att → Fin rnn1 → ℝ
  kappaB : Fin att → ℝ
  h1ReadW : Fin rd → Fin rnn1 → ℝ
  h1ReadB : Fin rd → ℝ
  h2ReadW : Fin rd → Fin rnn1 → ℝ
  h2ReadB : Fin rd → ℝ
  h3ReadW : Fin rd → Fin rnn1 → ℝ
  h3ReadB : Fin rd → ℝ
  cellR2 : (Fin rnn2 → ℝ) → (Fin (2*rnn2) → ℝ) → (Fin rnn2 → ℝ) → Fin rnn2 → ℝ
  r2rW : Fin rnn2 → Fin rd → ℝ
  r2rB : Fin rnn2 → ℝ
  r2rGatW : Fin (2*rnn2) → Fin rd → ℝ
  r2rGatB : Fin (2*rnn2) → ℝ
  spr2W : Fin rnn2 → Fin 1 → ℝ
  spr2B : Fin rnn2 → ℝ
  spr2GatW : Fin (2*rnn2) → Fin 1 → ℝ
  spr2GatB : Fin (2*rnn2) → ℝ
  f0r2W : Fin rnn2 → Fin 2 → ℝ
  f0r2B : Fin rnn2 → ℝ
  f0r2GatW : Fin (2*rnn2) → Fin 2 → ℝ
  f0r2GatB : Fin (2*rnn2) → ℝ
  datar2W : Fin rnn2 → Fin (nf+2) → ℝ
  datar2B : Fin rnn2 → ℝ
  datar2GatW : Fin (2*rnn2) → Fin (nf+2) → ℝ
  datar2GatB : Fin (2*rnn2) → ℝ
  f0W : Fin (2*1*kF0 + kF0) → Fin rd → ℝ
  f0B : Fin (2*1*kF0 + kF0) → ℝ
  binW : Fin 1 → Fin rd → ℝ
  binB : Fin 1 → ℝ
  spW : Fin (2*1*k + k) → Fin rnn2 → ℝ
  spB : Fin (2*1*k + k) → ℝ
  samplingBias : ℝ

-- Recurrent and attention state of the full Parrot stage 1.
structure PState (rnn1 att nl : ℕ) where
  h1 : Fin rnn1 → ℝ
  h2 : Fin rnn1 → ℝ
  h3 : Fin rnn1 → ℝ
  kappa : Fin att → ℝ
  w : Fin nl → ℝ

def pZeroState {rnn1 att nl : ℕ} : PState rnn1 att nl :=
  ⟨fun _ => 0, fun _ => 0, fun _ => 0, fun _ => 0, fun _ => 0⟩

-- The six per step sequences fed to the Parrot stage 1 scan.
structure PIn (rnn1 : ℕ) where
  i1 : Fin rnn1 → ℝ
  g1 : Fin (2*rnn1) → ℝ
  i2 : Fin rnn1 → ℝ
  g2 : Fin (2*rnn1) → ℝ
  i3 : Fin rnn1 → ℝ
  g3 : Fin (2*rnn1) → ℝ

-- One step of Parrot.compute_cost (model.py lines 459 to 503).  The kappa
-- increment is a plain exponential of the affine attention projection.
def pStep {nf k kF0 rnn1 rnn2 att nl rd L : ℕ}
    (P : PParams nf k kF0 rnn1 rnn2 att nl rd) (ctx : Fin L → Fin nl → ℝ)
    (inp : PIn rnn1) (s : PState rnn1 att nl) : PState rnn1 att nl :=
  let attinp1 := linApply P.attInpW1 P.attInpB1 s.w
  let attgat1 := linApply P.attGatW1 P.attGatB1 s.w
  let h1 := P.cell1 (fun i => inp.i1 i + attinp1 i) (fun i => inp.g1 i + attgat1 i) s.h1
  let h1inp2 := linApply P.h1h2W P.h1h2B h1
  let h1gat2 := linApply P.h1h2GatW P.h1h2GatB h1
  let h1inp3 := linApply P.h1h3W P.h1h3B h1
  let h1gat3 := linApply P.h1h3GatW P.h1h3GatB h1
  let a := fun i => Real.exp (linApply P.alphaW P.alphaB h1 i)
  let bb := fun i => Real.exp (linApply P.betaW P.betaB h1 i)
  let kap := fun i => s.kappa i + Real.exp (linApply P.kappaW P.kappaB h1 i)
  let phi := fun u : Fin L => ∑ i, a i * Real.exp (-(bb i) * (kap i - (u : ℝ))^2)
  let w := fun l => ∑ u, phi u * ctx u l
  let attinp2 := linApply P.attInpW2 P.attInpB2 w
  let attgat2 := linApply P.attGatW2 P.attGatB2 w
  let attinp3 := linApply P.attInpW3 P.attInpB3 w
  let attgat3 := linApply P.attGatW3 P.attGatB3 w
  let h2 := P.cell2 (fun i => inp.i2 i + h1inp2 i + attinp2 i)
    (fun i => inp.g2 i + h1gat2 i + attgat2 i) s.h2
  let h2inp3 := linApply P.h2h3W P.h2h3B h2
  let h2gat3 := linApply P.h2h3GatW P.h2h3GatB h2
  let h3 := P.cell3 (fun i => inp.i3 i + h1inp3 i + h2inp3 i + attinp3 i)
    (fun i => inp.g3 i + h1gat3 i + h2gat3 i + attgat3 i) s.h3
  { h1 := h1, h2 := h2, h3 := h3, kappa := kap, w := w }

-- The scan over a chunk inside Parrot.compute_cost.
def pScan {nf k kF0 rnn1 rnn2 att nl rd L : ℕ}
    (P : PParams nf k kF0 rnn1 rnn2 att nl rd) (ctx : Fin L → Fin nl → ℝ)
    (s0 : PState rnn1 att nl) (ins : List (PIn rnn1)) : List (PState rnn1 att nl) :=
  scanS (fun p s => pStep P ctx p s) s0 ins

-- The state update pairs returned by Parrot.compute_cost (model.py lines
-- 574 to 589): switch(start_flag, zero, last scanned state).
def pComputeCostUpdate {nf k kF0 rnn1 rnn2 att nl rd L : ℕ}
    (P : PParams nf k kF0 rnn1 rnn2 att nl rd) (ctx : Fin L → Fin nl → ℝ)
    (startFlag : ℝ) (s0 : PState rnn1 att nl) (ins : List (PIn rnn1)) :
    PState rnn1 att nl :=
  let last := (pScan P ctx s0 ins).getLastD s0
  { h1 := tswitch startFlag (fun _ => 0) last.h1,
    h2 := tswitch startFlag (fun _ => 0) last.h2,
    h3 := tswitch startFlag (fun _ => 0) last.h3,
    kappa := tswitch startFlag (fun _ => 0) last.kappa,
    w := tswitch startFlag (fun _ => 0) last.w }

-- Hidden states of the stage 2 scan over frequency bins, for one time step
-- and batch element: state n is the hidden state before bin n; the input to
-- bin n is zero for the first bin and the previous target bin otherwise
-- (model.py lines 518 to 563).
def rnn2States {rnn2 nf : ℕ}
    (cell : (Fin rnn2 → ℝ) → (Fin (2*rnn2) → ℝ) → (Fin rnn2 → ℝ) → Fin rnn2 → ℝ)
    (spW : Fin rnn2 → Fin 1 → ℝ) (spB : Fin rnn2 → ℝ)
    (spGatW : Fin (2*rnn2) → Fin 1 → ℝ) (spGatB : Fin (2*rnn2) → ℝ)
    (ctxI : Fin rnn2 → ℝ) (ctxG : Fin (2*rnn2) → ℝ)
    (target : Fin nf → ℝ) : ℕ → Fin rnn2 → ℝ
  | 0 => fun _ => 0
  | n+1 =>
    let v : ℝ := if n = 0 then 0 else if h : n - 1 < nf then target ⟨n-1, h⟩ else 0
    cell (fun i => linApply spW spB (fun _ : Fin 1 => v) i + ctxI i)
      (fun i => linApply spGatW spGatB (fun _ : Fin 1 => v) i + ctxG i)
      (rnn2States cell spW spB spGatW spGatB ctxI ctxG target n)

-- The scalar cost of Parrot.compute_cost (model.py lines 429 to 572), per
-- batch element; s0 holds the current shared initial state buffers.
def pComputeCost {nf k kF0 rnn1 rnn2 att nl rd T B L : ℕ}
    (P : PParams nf k kF0 rnn1 rnn2 att nl rd)
    (f0 f0Mask voiced : Fin (T+1) → Fin B → ℝ)
    (spectrum : Fin (T+1) → Fin B → Fin nf → ℝ)
    (transcripts : Fin B → Fin L → Fin nl)
    (transcriptsMask : Fin B → Fin L → ℝ)
    (s0 : Fin B → PState rnn1 att nl)
    (startFlag : ℝ) : ℝ :=
  let x : Fin T → Fin B → Fin (nf+2) → ℝ :=
    fun t b => frameOf (spectrum t.castSucc b) (f0 t.castSucc b) (voiced t.castSucc b)
  let ctx := fun b => transcriptsOH (transcripts b) (transcriptsMask b)
  let ins := fun b => List.ofFn (fun t : Fin T =>
    PIn.mk (linApply P.inpW1 P.inpB1 (x t b)) (linApply P.inpGatW1 P.inpGatB1 (x t b))
      (linApply P.inpW2 P.inpB2 (x t b)) (linApply P.inpGatW2 P.inpGatB2 (x t b))
      (linApply P.inpW3 P.inpB3 (x t b)) (linApply P.inpGatW3 P.inpGatB3 (x t b)))
  let states := fun b => pScan P (ctx b) (s0 b) (ins b)
  let sAt := fun (t : Fin T) b => (states b).getD t.val pZeroState
  let readout := fun (t : Fin T) b (r : Fin rd) =>
    linApply P.h1ReadW P.h1ReadB (sAt t b).h1 r
      + linApply P.h2ReadW P.h2ReadB (sAt t b).h2 r
      + linApply P.h3ReadW P.h3ReadB (sAt t b).h3 r
  let costF0 := fun (t : Fin T) b =>
    f0EmitterCost P.f0W P.f0B P.binW P.binB P.samplingBias 1e-5 (readout t b)
      (f0 t.succ b) (voiced t.succ b)
  let ctxI := fun (t : Fin T) b (i : Fin rnn2) =>
    linApply P.r2rW P.r2rB (readout t b) i
      + linApply P.f0r2W P.f0r2B
          (fun j : Fin 2 => if j = 0 then f0 t.succ b else voiced t.succ b) i
      + linApply P.datar2W P.datar2B (x t b) i
  let ctxG := fun (t : Fin T) b (i : Fin (2*rnn2)) =>
    linApply P.r2rGatW P.r2rGatB (readout t b) i
      + linApply P.f0r2GatW P.f0r2GatB
          (fun j : Fin 2 => if j = 0 then f0 t.succ b else voiced t.succ b) i
      + linApply P.datar2GatW P.datar2GatB (x t b) i
  let costSp := fun (t : Fin T) b =>
    ∑ n : Fin nf, gmmEmitterCost P.spW P.spB P.samplingBias 1e-5
      (rnn2States P.cellR2 P.spr2W P.spr2B P.spr2GatW P.spr2GatB
        (ctxI t b) (ctxG t b) (spectrum t.succ b) (n.val + 1))
      (fun _ : Fin 1 => spectrum t.succ b n)
  let mask := fun (t : Fin T) b => f0Mask t.succ b
  (∑ t, ∑ b, (costF0 t b + costSp t b) * mask t b) / maskedMeanDenom mask
    + 0 * startFlag

-- Concrete instances used by counterexamples and witnesses.  All linear
-- weights and biases are zero and the cell is a gated recurrent cell with
-- all weight matrices zero (update gate one half, zero candidate).

def spP0 : SPParams 1 1 1 1 1 1 1 where
  cell := fun _ _ h => fun i => h i / 2
  inpW := fun _ _ => 0
  inpB := fun _ => 0
  inpGatW := fun _ _ => 0
  inpGatB := fun _ => 0
  attInpW := fun _ _ => 0
  attInpB := fun _ => 0
  attGatW := fun _ _ => 0
  attGatB := fun _ => 0
  alphaW := fun _ _ => 0
  alphaB := fun _ => 0
  betaW := fun _ _ => 0
  betaB := fun _ => 0
  kappaW := fun _ _ => 0
  kappaB := fun _ => 0
  h1ReadW := fun _ _ => 0
  h1ReadB := fun _ => 0
  attReadW := fun _ _ => 0
  attReadB := fun _ => 0
  f0W := fun _ _ => 0
  f0B := fun _ => 0
  binW := fun _ _ => 0
  binB := fun _ => 0
  spW := fun _ _ => 0
  spB := fun _ => 0
  samplingBias := 0
  meanF0 := 0
  stdF0 := 1
  minVoicedLower := 0
  meanSpectrum := 0
  stdSpectrum := 1
  spectrumLower := 0
  spectrumUpper := 1

def pP0 : PParams 1 1 1 1 1 1 1 1 where
  cell1 := fun _ _ h => fun i => h i / 2
  cell2 := fun _ _ h => fun i => h i / 2
  cell3 := fun _ _ h => fun i => h i / 2
  inpW1 := fun _ _ => 0
  inpB1 := fun _ => 0
  inpGatW1 := fun _ _ => 0
  inpGatB1 := fun _ => 0
  inpW2 := fun _ _ => 0
  inpB2 := fun _ => 0
  inpGatW2 := fun _ _ => 0
  inpGatB2 := fun _ => 0
  inpW3 := fun _ _ => 0
  inpB3 := fun _ => 0
  inpGatW3 := fun _ _ => 0
  inpGatB3 := fun _ => 0
  h1h2W := fun _ _ => 0
  h1h2B := fun _ => 0
  h1h2GatW := fun _ _ => 0
  h1h2GatB := fun _ => 0
  h1h3W := fun _ _ => 0
  h1h3B := fun _ => 0
  h1h3GatW := fun _ _ => 0
  h1h3GatB := fun _ => 0
  h2h3W := fun _ _ => 0
  h2h3B := fun _ => 0
  h2h3GatW := fun _ _ => 0
  h2h3GatB := fun _ => 0
  attInpW1 := fun _ _ => 0
  attInpB1 := fun _ => 0
  attGatW1 := fun _ _ => 0
  attGatB1 := fun _ => 0
  attInpW2 := fun _ _ => 0
  attInpB2 := fun _ => 0
  attGatW2 := fun _ _ => 0
  attGatB2 := fun _ => 0
  attInpW3 := fun _ _ => 0
  attInpB3 := fun _ => 0
  attGatW3 := fun _ _ => 0
  attGatB3 := fun _ => 0
  alphaW := fun _ _ => 0
  alphaB := fun _ => 0
  betaW := fun _ _ => 0
  betaB := fun _ => 0
  kappaW := fun _ _ => 0
  kappaB := fun _ => 0
  h1ReadW := fun _ _ => 0
  h1ReadB := fun _ => 0
  h2ReadW := fun _ _ => 0
  h2ReadB := fun _ => 0
  h3ReadW := fun _ _ => 0
  h3ReadB := fun _ => 0
  cellR2 := fun _ _ h => fun i => h i / 2
  r2rW := fun _ _ => 0
  r2rB := fun _ => 0
  r2rGatW := fun _ _ => 0
  r2rGatB := fun _ => 0
  spr2W := fun _ _ => 0
  spr2B := fun _ => 0
  spr2GatW := fun _ _ => 0
  spr2GatB := fun _ => 0
  f0r2W := fun _ _ => 0
  f0r2B := fun _ => 0
  f0r2GatW := fun _ _ => 0
  f0r2GatB := fun _ => 0
  datar2W := fun _ _ => 0
  datar2B := fun _ => 0
  datar2GatW := fun _ _ => 0
  datar2GatB := fun _ => 0
  f0W := fun _ _ => 0
  f0B := fun _ => 0
  binW := fun _ _ => 0
  binB := fun _ => 0
  spW := fun _ _ => 0
  spB := fun _ => 0
  samplingBias := 0

def ctx0 : Fin 1 → Fin 1 → ℝ := fun _ _ => 0

def spS0 : SPState 1 1 1 := spZeroState

def sampS0 : SampState 1 1 1 1 := sampZeroState

def xinp0 : Fin 1 → ℝ := linApply spP0.inpW spP0.inpB sampS0.x

def xgat0 : Fin (2*1) → ℝ := linApply spP0.inpGatW spP0.inpGatB sampS0.x

def inp0 : (Fin 1 → ℝ) × (Fin (2*1) → ℝ) := (xinp0, xgat0)

def noise0 : SampleNoise 1 1 1 :=
  ⟨0, 0, fun _ => 0, 0, fun _ => 0⟩

-- Small concrete vectors used by the witnesses.
def zeroFun1 : Fin 1 → ℝ := fun _ => 0

def oneFun1 : Fin 1 → ℝ := fun _ => 1

def zeroFun2 : Fin 1 → Fin 1 → ℝ := fun _ _ => 0

def oneFun : Fin 1 → Fin 1 → ℝ := fun _ _ => 1

def zeroW3 : Fin (2*1*1 + 1) → Fin 1 → ℝ := fun _ _ => 0

def zeroB3 : Fin (2*1*1 + 1) → ℝ := fun _ => 0

-- ------------------------------------------------------------------
-- Helper lemmas.
-- ------------------------------------------------------------------

theorem logsumexp_eq {k : ℕ} (x : Fin k → ℝ) :
    logsumexp x = Real.log (∑ i, Real.exp (x i)) := by
  rcases Nat.eq_zero_or_pos k with hk | hk
  · subst hk
    simp [logsumexp, rowMax]
  · have hne : (Finset.univ : Finset (Fin k)).Nonempty := ⟨⟨0, hk⟩, Finset.mem_univ _⟩
    have hsum : (0:ℝ) < ∑ i, Real.exp (x i) :=
      Finset.sum_pos (fun i _ => Real.exp_pos _) hne
    have h1 : ∑ i, Real.exp (x i - rowMax x)
        = (∑ i, Real.exp (x i)) * Real.exp (-(rowMax x)) := by
      rw [Finset.sum_mul]
      refine Finset.sum_congr rfl fun i _ => ?_
      rw [← Real.exp_add]
      ring_nf
    simp only [logsumexp]
    rw [h1, Real.log_mul hsum.ne' (Real.exp_ne_zero _), Real.log_exp]
    ring

theorem exp_gauss_term (y μ σ : ℝ) (hσ : 0 < σ) :
    Real.exp (-(1/2) * ((y - μ)^2 / σ^2 + 2 * Real.log σ + Real.log (2 * Real.pi)))
      = gaussDensity y μ σ := by
  have h2π : (0:ℝ) < 2 * Real.pi := by positivity
  have hs : (0:ℝ) < Real.sqrt (2 * Real.pi) := Real.sqrt_pos.mpr h2π
  have hrw : -(1/2) * ((y - μ)^2 / σ^2 + 2 * Real.log σ + Real.log (2 * Real.pi))
      = -((y - μ)^2 / (2 * σ^2)) + -(Real.log σ)
        + -(Real.log (Real.sqrt (2 * Real.pi))) := by
    rw [Real.log_sqrt h2π.le]
    ring
  rw [gaussDensity, hrw, Real.exp_add, Real.exp_add, Real.exp_neg, Real.exp_neg,
    Real.exp_neg, Real.exp_log hσ, Real.exp_log hs, div_eq_mul_inv, mul_inv]
  ring

theorem exp_gmmInner {dim k : ℕ} (y : Fin dim → ℝ) (mu sig : Fin dim → Fin k → ℝ)
    (j : Fin k) (hsig : ∀ d j, 0 < sig d j) :
    Real.exp (gmmInner y mu sig j) = ∏ d, gaussDensity (y d) (mu d j) (sig d j) := by
  rw [gmmInner, Finset.mul_sum, Real.exp_sum]
  exact Finset.prod_congr rfl fun d _ =>
    exp_gauss_term (y d) (mu d j) (sig d j) (hsig d j)

theorem softmax_denom_pos {k : ℕ} (hk : 0 < k) (z : Fin k → ℝ) :
    0 < ∑ j, Real.exp (z j) :=
  Finset.sum_pos (fun i _ => Real.exp_pos _) ⟨⟨0, hk⟩, Finset.mem_univ _⟩

theorem softmax_pos {k : ℕ} (hk : 0 < k) (z : Fin k → ℝ) (j : Fin k) :
    0 < softmax z j :=
  div_pos (Real.exp_pos _) (softmax_denom_pos hk z)

theorem softmax_sum {k : ℕ} (hk : 0 < k) (z : Fin k → ℝ) :
    ∑ j, softmax z j = 1 := by
  simp only [softmax]
  rw [← Finset.sum_div, div_self (softmax_denom_pos hk z).ne']

theorem scanS_append {σ ι : Type} (f : ι → σ → σ) (s0 : σ) (xs ys : List ι) :
    scanS f s0 (xs ++ ys)
      = scanS f s0 xs ++ scanS f ((scanS f s0 xs).getLastD s0) ys := by
  induction xs generalizing s0 with
  | nil => simp [scanS]
  | cons x xs ih =>
    simp only [List.cons_append, scanS, List.getLastD_cons, List.append_eq]
    rw [ih (f x s0)]

theorem attention_mult_pos : 0 < attention_mult := by
  rw [attention_mult]
  norm_num

-- Evaluation of the kappa component of one training step at the concrete
-- zero weight instance: the increment is attention_mult times exp of zero.
theorem spStep_spP0_kappa (xi : Fin 1 → ℝ) (xg : Fin (2*1) → ℝ)
    (s : SPState 1 1 1) : (spStep spP0 ctx0 xi xg s).kappa 0 = s.kappa 0 + 1/20 := by
  simp [spStep, spP0, linApply, attention_mult]

-- Evaluation of the kappa component of one sampling step at the concrete
-- zero weight instance: the increment is exp of zero, with no scaling.
theorem spSampleStep_spP0_kappa (ns : SampleNoise 1 1 1) (s : SampState 1 1 1 1) :
    (spSampleStep spP0 ns ctx0 s).kappa 0 = s.kappa 0 + 1 := by
  simp [spSampleStep, spP0, linApply]

-- Closed form of the GMM emitter cost at the all zero one dimensional, one
-- component instance, as a function of the sampling bias.
theorem gmmCost_zero3_eval (bias : ℝ) :
    gmmEmitterCost zeroW3 zeroB3 bias (1e-5) zeroFun1 zeroFun1
      = -Real.log (1 + 1e-5)
        + (Real.log (Real.exp (-bias) + 1e-5) + Real.log (2 * Real.pi) / 2) := by
  have hw : (components zeroW3 zeroB3 bias (1e-5) zeroFun1).2.2 0 = 1 + 1e-5 := by
    simp [components, linApply, softmax, zeroW3, zeroB3, zeroFun1]
  have hmu : (components zeroW3 zeroB3 bias (1e-5) zeroFun1).1 0 0 = 0 := by
    simp [components, linApply, zeroW3, zeroB3, zeroFun1]
  have hsig : (components zeroW3 zeroB3 bias (1e-5) zeroFun1).2.1 0 0
      = Real.exp (-bias) + 1e-5 := by
    simp [components, linApply, zeroW3, zeroB3, zeroFun1]
  simp only [gmmEmitterCost, cost_gmm]
  rw [logsumexp_eq]
  simp only [Fin.sum_univ_one]
  rw [Real.log_exp]
  simp only [gmmInner, Fin.sum_univ_one, hw, hmu, hsig, zeroFun1]
  ring

-- ------------------------------------------------------------------
-- Claims.
-- ------------------------------------------------------------------

/-- Claim C1: for every target y, means mu, strictly positive scales sig and
strictly positive weights, cost_gmm equals the negative log of the sum over
components of the weight times the product over output dimensions of the
Gaussian density; and the logsumexp helper, which subtracts the per row
maximum before exponentiating, equals the plain log of the sum of
exponentials. -/
theorem C1_cost_gmm_is_nll {dim k : ℕ} (y : Fin dim → ℝ)
    (mu sig : Fin dim → Fin k → ℝ) (weight : Fin k → ℝ)
    (hsig : ∀ d j, 0 < sig d j) (hw : ∀ j, 0 < weight j) :
    cost_gmm y mu sig weight
        = -Real.log (∑ j, weight j * ∏ d, gaussDensity (y d) (mu d j) (sig d j))
      ∧ ∀ (m : ℕ) (x : Fin m → ℝ), logsumexp x = Real.log (∑ i, Real.exp (x i)) := by
  refine ⟨?_, fun m x => logsumexp_eq x⟩
  simp only [cost_gmm]
  rw [logsumexp_eq]
  have hterm : ∀ j : Fin k, Real.exp (Real.log (weight j) + gmmInner y mu sig j)
      = weight j * ∏ d, gaussDensity (y d) (mu d j) (sig d j) := fun j => by
    rw [Real.exp_add, Real.exp_log (hw j), exp_gmmInner y mu sig j hsig]
  rw [Finset.sum_congr rfl fun j _ => hterm j]

/-- Witness for C1 at dim 1, k 1, target 0, mean 0, scale 1, weight 1. -/
theorem C1_witness :
    (∀ (d j : Fin 1), (0:ℝ) < oneFun d j) ∧ (∀ j : Fin 1, (0:ℝ) < oneFun1 j) ∧
    (cost_gmm zeroFun1 zeroFun2 oneFun oneFun1
        = -Real.log (∑ j, oneFun1 j * ∏ d, gaussDensity (zeroFun1 d) (zeroFun2 d j) (oneFun d j))
      ∧ ∀ (m : ℕ) (x : Fin m → ℝ), logsumexp x = Real.log (∑ i, Real.exp (x i))) :=
  ⟨fun _ _ => one_pos, fun _ => one_pos,
    C1_cost_gmm_is_nll zeroFun1 zeroFun2 oneFun oneFun1
      (fun _ _ => one_pos) (fun _ => one_pos)⟩

/-- Claim C2: in the training step of both Parrot and SimpleParrot and in the
sampling step, the attention position kappa is non decreasing: every
component of the new kappa is at least the corresponding component of the
previous kappa, because the added increment is an exponential of an affine
projection (scaled by the positive attention_mult in the SimpleParrot
training step) and hence non negative. -/
theorem C2_kappa_nondecreasing :
    (∀ (nf k kF0 rnn1 att nl rd L : ℕ) (P : SPParams nf k kF0 rnn1 att nl rd)
       (ctx : Fin L → Fin nl → ℝ) (xi : Fin rnn1 → ℝ) (xg : Fin (2*rnn1) → ℝ)
       (s : SPState rnn1 att nl) (i : Fin att),
      s.kappa i ≤ (spStep P ctx xi xg s).kappa i) ∧
    (∀ (nf k kF0 rnn1 rnn2 att nl rd L : ℕ) (Q : PParams nf k kF0 rnn1 rnn2 att nl rd)
       (ctx : Fin L → Fin nl → ℝ) (inp : PIn rnn1)
       (s : PState rnn1 att nl) (i : Fin att),
      s.kappa i ≤ (pStep Q ctx inp s).kappa i) ∧
    (∀ (nf k kF0 rnn1 att nl rd L : ℕ) (P : SPParams nf k kF0 rnn1 att nl rd)
       (ns : SampleNoise nf k kF0) (ctx : Fin L → Fin nl → ℝ)
       (s : SampState nf rnn1 att nl) (i : Fin att),
      s.kappa i ≤ (spSampleStep P ns ctx s).kappa i) := by
  refine ⟨?_, ?_, ?_⟩
  · intro nf k kF0 rnn1 att nl rd L P ctx xi xg s i
    exact le_add_of_nonneg_right
      (mul_pos attention_mult_pos (Real.exp_pos _)).le
  · intro nf k kF0 rnn1 rnn2 att nl rd L Q ctx inp s i
    exact le_add_of_nonneg_right (Real.exp_pos _).le
  · intro nf k kF0 rnn1 att nl rd L P ns ctx s i
    exact le_add_of_nonneg_right (Real.exp_pos _).le

/-- Claim C3 counterexample: running the first chunk with start_flag one and
the second chunk with start_flag zero, threading the returned state update
in between, does not reproduce the single run on the concatenated sequence:
with start_flag one the update resets the carried state to zero, so the
second chunk restarts from kappa zero while the concatenated run continues
from the kappa reached after the first chunk. -/
theorem C3_counterexample :
    spScan spP0 ctx0 spS0 ([inp0] ++ [inp0])
      ≠ spScan spP0 ctx0 spS0 [inp0]
          ++ spScan spP0 ctx0 (spComputeCostUpdate spP0 ctx0 1 spS0 [inp0]) [inp0] := by
  intro h
  have h2 : ((spScan spP0 ctx0 spS0 ([inp0] ++ [inp0])).getD 1 spS0).kappa 0
      = ((spScan spP0 ctx0 spS0 [inp0]
          ++ spScan spP0 ctx0 (spComputeCostUpdate spP0 ctx0 1 spS0 [inp0]) [inp0]).getD
            1 spS0).kappa 0 := by
    rw [h]
  have e1 : ((spScan spP0 ctx0 spS0 ([inp0] ++ [inp0])).getD 1 spS0).kappa 0
      = 1/10 := by
    simp [spScan, scanS, spStep_spP0_kappa, spS0, spZeroState]
    norm_num
  have e2 : ((spScan spP0 ctx0 spS0 [inp0]
        ++ spScan spP0 ctx0 (spComputeCostUpdate spP0 ctx0 1 spS0 [inp0]) [inp0]).getD
          1 spS0).kappa 0 = 1/20 := by
    simp [spScan, scanS, spComputeCostUpdate, tswitch, spStep_spP0_kappa]
  rw [e1, e2] at h2
  norm_num at h2

/-- Claim C3, amended: when both chunks are processed with start_flag zero,
the state update pair returned by compute_cost carries the final scanned
state into the next chunk, and the chunked recurrence agrees exactly with
the recurrence on the concatenated input sequence, for SimpleParrot and for
Parrot alike.  With start_flag one the update resets the carried state to
zero instead (see the counterexample). -/
theorem C3_chunk_threading_flag0 :
    (∀ (nf k kF0 rnn1 att nl rd L : ℕ) (P : SPParams nf k kF0 rnn1 att nl rd)
       (ctx : Fin L → Fin nl → ℝ) (s0 : SPState rnn1 att nl)
       (xs ys : List ((Fin rnn1 → ℝ) × (Fin (2*rnn1) → ℝ))),
      spScan P ctx s0 (xs ++ ys)
        = spScan P ctx s0 xs ++ spScan P ctx (spComputeCostUpdate P ctx 0 s0 xs) ys) ∧
    (∀ (nf k kF0 rnn1 rnn2 att nl rd L : ℕ) (Q : PParams nf k kF0 rnn1 rnn2 att nl rd)
       (ctx : Fin L → Fin nl → ℝ) (q0 : PState rnn1 att nl) (xs ys : List (PIn rnn1)),
      pScan Q ctx q0 (xs ++ ys)
        = pScan Q ctx q0 xs ++ pScan Q ctx (pComputeCostUpdate Q ctx 0 q0 xs) ys) := by
  constructor
  · intro nf k kF0 rnn1 att nl rd L P ctx s0 xs ys
    have hupd : spComputeCostUpdate P ctx 0 s0 xs = (spScan P ctx s0 xs).getLastD s0 := by
      simp [spComputeCostUpdate, tswitch]
    rw [hupd]
    exact scanS_append _ s0 xs ys
  · intro nf k kF0 rnn1 rnn2 att nl rd L Q ctx q0 xs ys
    have hupd : pComputeCostUpdate Q ctx 0 q0 xs = (pScan Q ctx q0 xs).getLastD q0 := by
      simp [pComputeCostUpdate, tswitch]
    rw [hupd]
    exact scanS_append _ q0 xs ys

/-- Claim C4: GMMEmitter.cost and GMMEmitter.emit both consume the mixture
parameters produced by the single components function, in which sigma is
exp(raw minus bias) plus eps and the weight logits are multiplied by one
plus bias before the softmax; and a nonzero sampling bias changes the value
of the cost (exhibited at a concrete instance). -/
theorem C4_bias_coupling :
    (∀ (inputDim dim k : ℕ) (W : Fin (2*dim*k + k) → Fin inputDim → ℝ)
       (b : Fin (2*dim*k + k) → ℝ) (bias eps : ℝ) (readouts : Fin inputDim → ℝ)
       (outputs : Fin dim → ℝ),
      gmmEmitterCost W b bias eps readouts outputs
        = cost_gmm outputs (components W b bias eps readouts).1
            (components W b bias eps readouts).2.1
            (components W b bias eps readouts).2.2) ∧
    (∀ (inputDim dim k : ℕ) (W : Fin (2*dim*k + k) → Fin inputDim → ℝ)
       (b : Fin (2*dim*k + k) → ℝ) (bias eps : ℝ) (readouts : Fin inputDim → ℝ)
       (idx : Fin k) (noise : Fin dim → ℝ),
      gmmEmitterEmit W b bias eps readouts idx noise
        = sample_gmm (components W b bias eps readouts).1
            (components W b bias eps readouts).2.1
            (components W b bias eps readouts).2.2 idx noise) ∧
    (∀ (inputDim dim k : ℕ) (W : Fin (2*dim*k + k) → Fin inputDim → ℝ)
       (b : Fin (2*dim*k + k) → ℝ) (bias eps : ℝ) (readouts : Fin inputDim → ℝ)
       (d : Fin dim) (j : Fin k),
      (components W b bias eps readouts).2.1 d j
        = Real.exp (linApply W b readouts (sigIdx d j) - bias) + eps) ∧
    (∀ (inputDim dim k : ℕ) (W : Fin (2*dim*k + k) → Fin inputDim → ℝ)
       (b : Fin (2*dim*k + k) → ℝ) (bias eps : ℝ) (readouts : Fin inputDim → ℝ)
       (j : Fin k),
      (components W b bias eps readouts).2.2 j
        = softmax (fun i => linApply W b readouts (wIdx i) * (1 + bias)) j + eps) ∧
    (∃ bias : ℝ, bias ≠ 0 ∧
      gmmEmitterCost zeroW3 zeroB3 bias (1e-5) zeroFun1 zeroFun1
        ≠ gmmEmitterCost zeroW3 zeroB3 0 (1e-5) zeroFun1 zeroFun1) := by
  refine ⟨by intros; rfl, by intros; rfl, by intros; rfl, by intros; rfl,
    1, one_ne_zero, ?_⟩
  rw [gmmCost_zero3_eval 1, gmmCost_zero3_eval 0]
  have he : Real.exp (-1) < Real.exp (-0) := Real.exp_lt_exp.mpr (by norm_num)
  have hlt : Real.log (Real.exp (-1) + 1e-5) < Real.log (Real.exp (-0) + 1e-5) :=
    Real.log_lt_log (by positivity) (add_lt_add_right he _)
  intro heq
  have hcc := add_left_cancel heq
  have hcc2 := add_right_cancel hcc
  exact absurd hcc2 hlt.ne

/-- Claim C5: for every input, the mixture weights returned by
GMMEmitter.components are strictly positive in every entry and sum exactly
to one plus k times eps, because eps is added after the softmax and never
renormalized. -/
theorem C5_weight_floor {inputDim dim k : ℕ} (hk : 0 < k)
    (W : Fin (2*dim*k + k) → Fin inputDim → ℝ) (b : Fin (2*dim*k + k) → ℝ)
    (bias eps : ℝ) (heps : 0 ≤ eps) (inputs : Fin inputDim → ℝ) :
    (∀ j, 0 < (components W b bias eps inputs).2.2 j) ∧
    ∑ j, (components W b bias eps inputs).2.2 j = 1 + (k : ℝ) * eps := by
  constructor
  · intro j
    exact add_pos_of_pos_of_nonneg (softmax_pos hk _ j) heps
  · show ∑ j, (softmax (fun i => linApply W b inputs (wIdx i) * (1 + bias)) j + eps)
      = 1 + (k : ℝ) * eps
    rw [Finset.sum_add_distrib, softmax_sum hk, Finset.sum_const, Finset.card_univ,
      Fintype.card_fin, nsmul_eq_mul]

/-- Witness for C5 at input dimension 1, one component, eps 1e-5, bias 0. -/
theorem C5_witness :
    0 < 1 ∧ (0:ℝ) ≤ 1e-5 ∧
    ((∀ j, 0 < (components zeroW3 zeroB3 0 1e-5 zeroFun1).2.2 j) ∧
      ∑ j, (components zeroW3 zeroB3 0 1e-5 zeroFun1).2.2 j = 1 + ((1:ℕ) : ℝ) * 1e-5) :=
  ⟨one_pos, by norm_num,
    C5_weight_floor one_pos zeroW3 zeroB3 0 1e-5 (by norm_num) zeroFun1⟩

/-- Claim C6: when the ground truth voiced flag of a frame is zero, the GMM
F0 term contributes exactly zero to F0Emitter.cost, whatever the f0 value,
and the remaining cost is the binary cross entropy on voicing with the
0 log 0 = 0 convention. -/
theorem C6_unvoiced_zero_gmm {inputDim kF0 : ℕ}
    (f0W : Fin (2*1*kF0 + kF0) → Fin inputDim → ℝ) (f0B : Fin (2*1*kF0 + kF0) → ℝ)
    (binW : Fin 1 → Fin inputDim → ℝ) (binB : Fin 1 → ℝ) (bias eps : ℝ)
    (readouts : Fin inputDim → ℝ) (f0 f0a : ℝ) :
    f0EmitterCost f0W f0B binW binB bias eps readouts f0 0
        = bce 0 (f0Binary binW binB readouts)
      ∧ f0EmitterCost f0W f0B binW binB bias eps readouts f0 0
        = f0EmitterCost f0W f0B binW binB bias eps readouts f0a 0 := by
  constructor
  · simp [f0EmitterCost, bce]
  · simp [f0EmitterCost]

/-- Claim C7, proved on the SimpleParrot sampling recurrence, which realizes
the intended behavior: the sampling entry point produces a stacked sequence
of exactly numSteps frames of width num_freq plus two, and each step feeds
the state holding the previously emitted frame to the next step (strict
autoregression).  The Parrot variant of sample_model contains a slip: it
never unpacks the four output list of its one step function, so it stores
and feeds back the whole list instead of the emitted frame. -/
theorem C7_sample_autoregression {nf k kF0 rnn1 att nl rd L : ℕ}
    (P : SPParams nf k kF0 rnn1 att nl rd) (noise : ℕ → SampleNoise nf k kF0)
    (ctx : Fin L → Fin nl → ℝ) (numSteps : ℕ) :
    (sample_model P noise ctx numSteps).length = numSteps ∧
    sample_model P noise ctx numSteps
      = List.ofFn (fun t : Fin numSteps => (spSampleStates P noise ctx (t.val + 1)).x) ∧
    ∀ n : ℕ, spSampleStates P noise ctx (n + 1)
      = spSampleStep P (noise n) ctx (spSampleStates P noise ctx n) :=
  ⟨List.length_ofFn _, rfl, fun n => rfl⟩

/-- Claim C8: when the frame mask is all zero, the masked mean cost of
compute_cost is still well defined for both models: the denominator is the
mask sum plus 1e-5, hence equal to 1e-5 and nonzero, and the returned
scalar cost equals zero because the masked numerator is zero. -/
theorem C8_zero_mask_safe {nf k kF0 rnn1 rnn2 att nl rd T B L : ℕ}
    (P : SPParams nf k kF0 rnn1 att nl rd) (Q : PParams nf k kF0 rnn1 rnn2 att nl rd)
    (f0 f0Mask voiced : Fin (T+1) → Fin B → ℝ)
    (spectrum : Fin (T+1) → Fin B → Fin nf → ℝ)
    (transcripts : Fin B → Fin L → Fin nl) (transcriptsMask : Fin B → Fin L → ℝ)
    (s0 : Fin B → SPState rnn1 att nl) (q0 : Fin B → PState rnn1 att nl)
    (startFlag : ℝ) (hmask : ∀ t b, f0Mask t b = 0) :
    maskedMeanDenom (fun (t : Fin T) (b : Fin B) => f0Mask t.succ b) = 1e-5 ∧
    spComputeCost P f0 f0Mask voiced spectrum transcripts transcriptsMask s0 startFlag = 0 ∧
    pComputeCost Q f0 f0Mask voiced spectrum transcripts transcriptsMask q0 startFlag = 0 := by
  refine ⟨?_, ?_, ?_⟩
  · simp [maskedMeanDenom, hmask]
  · simp [spComputeCost, hmask]
  · simp [pComputeCost, hmask]

/-- Witness for C8 at one step, one batch element, all dimensions one, the
zero weight parameter instances and all zero inputs. -/
theorem C8_witness :
    (∀ (t : Fin 2) (b : Fin 1), (fun (_ : Fin 2) (_ : Fin 1) => (0:ℝ)) t b = 0) ∧
    (maskedMeanDenom (fun (t : Fin 1) (b : Fin 1) =>
        (fun (_ : Fin 2) (_ : Fin 1) => (0:ℝ)) t.succ b) = 1e-5 ∧
      spComputeCost spP0 (fun (_ : Fin 2) (_ : Fin 1) => (0:ℝ))
        (fun (_ : Fin 2) (_ : Fin 1) => (0:ℝ)) (fun (_ : Fin 2) (_ : Fin 1) => (0:ℝ))
        (fun (_ : Fin 2) (_ : Fin 1) (_ : Fin 1) => (0:ℝ))
        (fun (_ : Fin 1) (_ : Fin 1) => (0 : Fin 1))
        (fun (_ : Fin 1) (_ : Fin 1) => (0:ℝ)) (fun _ => spZeroState) 0 = 0 ∧
      pComputeCost pP0 (fun (_ : Fin 2) (_ : Fin 1) => (0:ℝ))
        (fun (_ : Fin 2) (_ : Fin 1) => (0:ℝ)) (fun (_ : Fin 2) (_ : Fin 1) => (0:ℝ))
        (fun (_ : Fin 2) (_ : Fin 1) (_ : Fin 1) => (0:ℝ))
        (fun (_ : Fin 1) (_ : Fin 1) => (0 : Fin 1))
        (fun (_ : Fin 1) (_ : Fin 1) => (0:ℝ)) (fun _ => pZeroState) 0 = 0) :=
  ⟨fun _ _ => rfl,
    C8_zero_mask_safe spP0 pP0 (fun _ _ => 0) (fun _ _ => 0) (fun _ _ => 0)
      (fun _ _ _ => 0) (fun _ _ => 0) (fun _ _ => 0) (fun _ => spZeroState)
      (fun _ => pZeroState) 0 (fun _ _ => rfl)⟩

/-- Claim C9 counterexample: at identical parameters, previous state and
hidden state, the kappa produced by the SimpleParrot training step differs
from the kappa produced by the sampling step, because the training step
scales the exponential increment by attention_mult equal to one twentieth
while the sampling step does not. -/
theorem C9_counterexample :
    (spStep spP0 ctx0 xinp0 xgat0 spS0).kappa 0
      ≠ (spSampleStep spP0 noise0 ctx0 sampS0).kappa 0 := by
  rw [spStep_spP0_kappa, spSampleStep_spP0_kappa]
  have h1 : spS0.kappa 0 = 0 := rfl
  have h2 : sampS0.kappa 0 = 0 := rfl
  rw [h1, h2]
  norm_num

/-- Claim C9, amended: when the sampling step and the training step see the
same previous state and the training step is fed the projections of the
same previous frame, the two attention recurrences agree up to the scaling
of the increment: the training kappa increment equals attention_mult times
the sampling kappa increment. -/
theorem C9_train_sample_kappa_relation {nf k kF0 rnn1 att nl rd L : ℕ}
    (P : SPParams nf k kF0 rnn1 att nl rd) (ns : SampleNoise nf k kF0)
    (ctx : Fin L → Fin nl → ℝ) (s : SPState rnn1 att nl)
    (ss : SampState nf rnn1 att nl) (xinp : Fin rnn1 → ℝ) (xgat : Fin (2*rnn1) → ℝ)
    (hh : ss.h1 = s.h1) (hk : ss.kappa = s.kappa) (hw : ss.w = s.w)
    (hxi : xinp = linApply P.inpW P.inpB ss.x)
    (hxg : xgat = linApply P.inpGatW P.inpGatB ss.x) (i : Fin att) :
    (spStep P ctx xinp xgat s).kappa i - s.kappa i
      = attention_mult * ((spSampleStep P ns ctx ss).kappa i - s.kappa i) := by
  subst hxi hxg
  simp only [spStep, spSampleStep]
  rw [hh, hk, hw]
  ring

/-- Witness for C9 at the concrete zero weight instance with zero states. -/
theorem C9_witness :
    sampS0.h1 = spS0.h1 ∧ sampS0.kappa = spS0.kappa ∧ sampS0.w = spS0.w ∧
    xinp0 = linApply spP0.inpW spP0.inpB sampS0.x ∧
    xgat0 = linApply spP0.inpGatW spP0.inpGatB sampS0.x ∧
    (spStep spP0 ctx0 xinp0 xgat0 spS0).kappa 0 - spS0.kappa 0
      = attention_mult * ((spSampleStep spP0 noise0 ctx0 sampS0).kappa 0 - spS0.kappa 0) :=
  ⟨rfl, rfl, rfl, rfl, rfl,
    C9_train_sample_kappa_relation spP0 noise0 ctx0 spS0 sampS0 xinp0 xgat0
      rfl rfl rfl rfl rfl 0⟩

/-- Claim C10: the scalar cost returned by compute_cost does not depend on
start_flag for either model, because start_flag enters the cost expression
only through the term zero times start_flag; start_flag only influences the
returned state update pairs. -/
theorem C10_cost_startflag_independent :
    (∀ (nf k kF0 rnn1 att nl rd T B L : ℕ) (P : SPParams nf k kF0 rnn1 att nl rd)
       (f0 f0Mask voiced : Fin (T+1) → Fin B → ℝ)
       (spectrum : Fin (T+1) → Fin B → Fin nf → ℝ)
       (transcripts : Fin B → Fin L → Fin nl) (transcriptsMask : Fin B → Fin L → ℝ)
       (s0 : Fin B → SPState rnn1 att nl) (sf sf2 : ℝ),
      spComputeCost P f0 f0Mask voiced spectrum transcripts transcriptsMask s0 sf
        = spComputeCost P f0 f0Mask voiced spectrum transcripts transcriptsMask s0 sf2) ∧
    (∀ (nf k kF0 rnn1 rnn2 att nl rd T B L : ℕ) (Q : PParams nf k kF0 rnn1 rnn2 att nl rd)
       (f0 f0Mask voiced : Fin (T+1) → Fin B → ℝ)
       (spectrum : Fin (T+1) → Fin B → Fin nf → ℝ)
       (transcripts : Fin B → Fin L → Fin nl) (transcriptsMask : Fin B → Fin L → ℝ)
       (q0 : Fin B → PState rnn1 att nl) (sf sf2 : ℝ),
      pComputeCost Q f0 f0Mask voiced spectrum transcripts transcriptsMask q0 sf
        = pComputeCost Q f0 f0Mask voiced spectrum transcripts transcriptsMask q0 sf2) := by
  constructor
  · intro nf k kF0 rnn1 att nl rd T B L P f0 f0Mask voiced spectrum tr trm s0 sf sf2
    simp [spComputeCost]
  · intro nf k kF0 rnn1 rnn2 att nl rd T B L Q f0 f0Mask voiced spectrum tr trm q0 sf sf2
    simp [pComputeCost]
